import Mathlib

/-!
Shallow embedding of the satellite-orbit tracker core (GlobeViewer / App.jsx,
celestrakLoader.js).  Instants are integers of milliseconds since the Unix
epoch, mirroring the JavaScript `Date.getTime()` arithmetic (a `Date` built
from a fractional millisecond count truncates it to an integer); quantities the
code computes as non-integral numbers (the TLE age in days, the rate
multiplier, scanner distances, geodetic coordinates) are rationals.  The external
SGP4 propagation capability (satellite.js: `twoline2satrec`, `propagate`,
`gstime`, `eciToGeodetic`) is modelled as an oracle structure `PropLib`:
`epochMs` is `getTleEpochDate` (none when `twoline2satrec` fails or yields no
epoch), and `propagateAt` is the per-instant propagation-plus-geodetic-conversion
pipeline (none when propagation throws, returns no/NaN position, or conversion
fails).
-/

namespace SatTrack

/-- MAX_FUTURE_DAYS constant from GlobeViewer (the validity horizon, 30 days). -/
def MAX_FUTURE_DAYS : ℤ := 30

/-- Horizon expressed in milliseconds: `MAX_FUTURE_DAYS * 24 * 60 * 60 * 1000`. -/
def horizonMs : ℤ := MAX_FUTURE_DAYS * 24 * 60 * 60 * 1000

/-- A catalog record as produced by `parseTLE`: identifier, display name and the
two TLE element lines. -/
structure Sat where
  id : Nat
  name : String
  line1 : String
  line2 : String
deriving DecidableEq

/-- Result of one successful propagation at one instant: geodetic latitude,
longitude, altitude (km, `posGd.height`) and velocity magnitude in km/h. -/
structure PV where
  latitude : ℚ
  longitude : ℚ
  height : ℚ
  vKmH : ℚ
deriving DecidableEq

/-- Oracle for the external satellite.js capability (spec section 6 contract). -/
structure PropLib where
  epochMs : Sat → Option ℤ
  propagateAt : Sat → ℤ → Option PV

/-- TLE age in days, `(now.getTime() - tleEpochMs) / (86400 * 1000)` from
`updateInfoPanel`. -/
def tleAgeDays (epochMs now : ℤ) : ℚ := ((now - epochMs : ℤ) : ℚ) / (86400 * 1000)

/-- Categorical freshness label from `updateInfoPanel` (the string "VERY OLD"
is rendered as the constructor `VERY_OLD`). -/
inductive TleAgeLabel where
  | FRESH
  | OK
  | OLD
  | VERY_OLD
deriving DecidableEq

/-- Threshold chain of `updateInfoPanel`: `<3d FRESH, <14d OK, <30d OLD, else
VERY OLD`. -/
def tleAgeLabelOf (age : ℚ) : TleAgeLabel :=
  if age < 3 then .FRESH
  else if age < 14 then .OK
  else if age < 30 then .OLD
  else .VERY_OLD

/-- Embedding of `isOutOfRange(jsDate, sat)`: false when no satellite or no
epoch, otherwise `jsDate > epoch + MAX_FUTURE_DAYS` (in ms). -/
def isOutOfRange (L : PropLib) (jsDate : ℤ) (sat : Option Sat) : Bool :=
  match sat with
  | none => false
  | some s =>
    match L.epochMs s with
    | none => false
    | some epoch => decide (jsDate > epoch + horizonMs)

/-- Cesium clock snapshot: current instant, rate multiplier, running flag. -/
structure SimClock where
  currentTime : ℤ
  multiplier : ℚ
  shouldAnimate : Bool
deriving DecidableEq

/-- Clock initialization effect: `currentTime = now`, `multiplier = 10`,
`shouldAnimate = true`. -/
def initClock (now : ℤ) : SimClock :=
  { currentTime := now, multiplier := 10, shouldAnimate := true }

/-- Embedding of `setSpeed(val)`.  `parseFloat` is modelled by the `Option ℚ`
argument (`none` encodes NaN, in which case the function returns early).  The
second component of the result is the `isPaused` flag. -/
def setSpeed (c : SimClock) (isPaused : Bool) (parsed : Option ℚ) : SimClock × Bool :=
  match parsed with
  | none => (c, isPaused)
  | some s => ({ c with multiplier := s, shouldAnimate := true }, false)

/-- Embedding of the instant actually installed by `handleDateChange`: the
requested date is clamped to at most `epoch + MAX_FUTURE_DAYS` when a satellite
is selected (and has an epoch), and independently to at most
`Date.now() + MAX_FUTURE_DAYS`.  No lower clamp is applied in the handler. -/
def handleDateChangeInstant (L : PropLib) (selectedSat : Option Sat)
    (wallNow t : ℤ) : ℤ :=
  let d1 :=
    match selectedSat with
    | some s =>
      match L.epochMs s with
      | some epoch => if t > epoch + horizonMs then epoch + horizonMs else t
      | none => t
    | none => t
  if d1 > wallNow + horizonMs then wallNow + horizonMs else d1

/-- Minute offsets of the history sampler loop in `calculatePreciseMovement`:
`for (let i = -240; i <= 240; i += 2)`. -/
def historyOffsets : List ℤ := (List.range 241).map (fun k => -240 + 2 * Int.ofNat k)

/-- Embedding of `calculatePreciseMovement`: sample the selected satellite over
plus/minus 4 hours around the clock time at a 2-minute step; each sample is the
instant `baseDate + i * 60_000` paired with the propagated position, and any
failing step is skipped (`continue` / the empty catch). -/
def sampleHistory (L : PropLib) (s : Sat) (base : ℤ) : List (ℤ × PV) :=
  historyOffsets.filterMap (fun i =>
    match L.propagateAt s (base + i * 60000) with
    | some pv => some (base + i * 60000, pv)
    | none => none)

/-- Minute offsets of the future sampler loop in `getDynamicFuturePath`:
`for (let i = 0; i <= 90; i += 1)`. -/
def futureOffsets : List ℤ := (List.range 91).map (fun k => Int.ofNat k)

/-- Embedding of the body of the `CallbackProperty` built by
`getDynamicFuturePath`: 90 minutes ahead of the request instant at a 1-minute
step, failing steps ignored.  The callback recomputes this list from scratch on
every evaluation, so the embedding is a pure function of the start instant. -/
def sampleFuture (L : PropLib) (s : Sat) (start : ℤ) : List PV :=
  futureOffsets.filterMap (fun i => L.propagateAt s (start + i * 60000))

/-- Selection-related React state of GlobeViewer: the selected satellite, the
cached orbit path (`selectedSatPath` and its ref, which always hold the same
value), the out-of-range flag, the camera-follow flag, the warning banner and
the snapshot exposed through `onSatelliteSelect` (modelled by the satellite id
and the freshness label it carries). -/
structure AppState where
  selectedSat : Option Sat
  selectedSatPath : Option (List (ℤ × PV))
  isTleOutOfRange : Bool
  isTracked : Bool
  tleWarning : Bool
  panel : Option (Nat × TleAgeLabel)
deriving DecidableEq

/-- Initial GlobeViewer state: nothing selected, nothing cached. -/
def initialAppState : AppState :=
  { selectedSat := none, selectedSatPath := none, isTleOutOfRange := false,
    isTracked := false, tleWarning := false, panel := none }

/-- Embedding of `updateInfoPanel`: returns early when `getSatrec` fails,
otherwise publishes the satellite id and the freshness label computed from the
TLE age at the clock instant. -/
def updateInfoPanel (L : PropLib) (clockNow : ℤ) (sat : Sat) (st : AppState) : AppState :=
  match L.epochMs sat with
  | none => st
  | some epoch =>
    { st with panel := some (sat.id, tleAgeLabelOf (tleAgeDays epoch clockNow)) }

/-- Embedding of `selectSatelliteById(satId)`: the satellite is looked up in the
full `satellites` catalog; on a miss the state is unchanged.  On a hit the
selection is installed, the out-of-range flag is recomputed at the clock
instant, the history path is rebuilt when in range (and cleared with a warning
when out of range), and the info panel is refreshed. -/
def selectSatelliteById (L : PropLib) (catalog : List Sat) (clockNow : ℤ)
    (satId : Nat) (st : AppState) : AppState :=
  match catalog.find? (fun s => s.id == satId) with
  | none => st
  | some sat =>
    let out := isOutOfRange L clockNow (some sat)
    let st1 :=
      if out then
        { st with selectedSat := some sat, isTleOutOfRange := true,
                  selectedSatPath := none, tleWarning := true }
      else
        { st with selectedSat := some sat, isTleOutOfRange := false,
                  selectedSatPath := some (sampleHistory L sat clockNow),
                  tleWarning := false }
    updateInfoPanel L clockNow sat st1

/-- Embedding of the once-per-second branch of the `onTick` listener: recompute
the out-of-range flag for the selection; on a transition into out-of-range the
cached orbit path is dropped (the selection is kept), on a transition back into
range the path is rebuilt; the warning banner mirrors the flag and the info
panel is refreshed while a satellite is selected. -/
def onTickUpdate (L : PropLib) (clockNow : ℤ) (st : AppState) : AppState :=
  let out := isOutOfRange L clockNow st.selectedSat
  let st1 :=
    if out != st.isTleOutOfRange then
      if out then
        { st with isTleOutOfRange := true, selectedSatPath := none }
      else
        match st.selectedSat with
        | some s =>
          { st with isTleOutOfRange := false,
                    selectedSatPath := some (sampleHistory L s clockNow) }
        | none => { st with isTleOutOfRange := false }
    else st
  let st2 := { st1 with tleWarning := out }
  match st.selectedSat with
  | some s => updateInfoPanel L clockNow s st2
  | none => st2

/-- Embedding of the auto-deselect effect: when the selected satellite is no
longer in the filtered list, the selection, the cached path, the follow flag
and the exposed snapshot are all cleared. -/
def onFilterChanged (filtered : List Sat) (st : AppState) : AppState :=
  match st.selectedSat with
  | none => st
  | some sel =>
    if filtered.any (fun s => s.id == sel.id) then st
    else
      { st with selectedSat := none, selectedSatPath := none,
                isTracked := false, panel := none }

/-- How the selected satellite is rendered (JSX conditions of the
`selected-sat-complex` and `selected-sat-simple` entities). -/
inductive SelDisplay where
  | hidden
  | fullPath
  | staticMarker
deriving DecidableEq

/-- Render dispatch for the selection: the orbit-path entity requires the
satellite to be in the filter, in range and to have a cached path; the plain
static marker is rendered when the satellite is in the filter but flagged out
of range. -/
def selectionDisplay (st : AppState) (inFilter : Bool) : SelDisplay :=
  match st.selectedSat with
  | none => .hidden
  | some _ =>
    if !inFilter then .hidden
    else if !st.isTleOutOfRange && st.selectedSatPath.isSome then .fullPath
    else if st.isTleOutOfRange then .staticMarker
    else .hidden

/-- JavaScript `String.prototype.trim` over the ASCII data handled here. -/
def jsTrim (s : String) : String :=
  String.mk (((s.toList.dropWhile Char.isWhitespace).reverse.dropWhile
    Char.isWhitespace).reverse)

/-- JavaScript `String.prototype.toUpperCase` over the ASCII data handled
here. -/
def jsUpper (s : String) : String := String.mk (s.toList.map Char.toUpper)

/-- Contiguous-substring test on character lists (JavaScript
`String.prototype.includes`). -/
def containsSub (needle : List Char) : List Char → Bool
  | [] => needle.isEmpty
  | c :: cs => needle.isPrefixOf (c :: cs) || containsSub needle cs

/-- JavaScript `hay.includes(needle)`. -/
def jsIncludes (hay needle : String) : Bool := containsSub needle.toList hay.toList

/-- Name-search stage of `filteredSatellites`: when the trimmed search term is
non-empty, keep the satellites whose upper-cased name contains the upper-cased
trimmed term. -/
def searchFiltered (searchTerm : String) (sats : List Sat) : List Sat :=
  if jsTrim searchTerm != "" then
    sats.filter (fun s => jsIncludes (jsUpper s.name) (jsUpper (jsTrim searchTerm)))
  else sats

/-- Advanced-filter predicate of `filteredSatellites`: propagate at wall-clock
now; drop the satellite when the record or propagation is unavailable or when
velocity (km/h) or altitude (km) falls outside the configured ranges. -/
def advPred (L : PropLib) (wallNow : ℤ) (fAltMin fAltMax fVelMin fVelMax : ℚ)
    (s : Sat) : Bool :=
  match L.propagateAt s wallNow with
  | none => false
  | some pv =>
    if pv.vKmH < fVelMin || pv.vKmH > fVelMax then false
    else if pv.height < fAltMin || pv.height > fAltMax then false
    else true

/-- Embedding of the `filteredSatellites` memo: name search followed, only when
the advanced panel is shown, by the velocity/altitude filter. -/
def filteredSatellites (L : PropLib) (wallNow : ℤ) (searchTerm : String)
    (showAdvFilters : Bool) (fAltMin fAltMax fVelMin fVelMax : ℚ)
    (sats : List Sat) : List Sat :=
  let result := searchFiltered searchTerm sats
  if !showAdvFilters then result
  else result.filter (advPred L wallNow fAltMin fAltMax fVelMin fVelMax)

/-- One scanner hit: name, id and distance to the ground target in km. -/
structure Intercept where
  name : String
  id : Nat
  distanceKm : ℚ
deriving DecidableEq

/-- Ordering used by `found.sort((a, b) => a.distanceKm - b.distanceKm)`. -/
def interceptLE (a b : Intercept) : Prop := a.distanceKm ≤ b.distanceKm

instance : DecidableRel interceptLE :=
  fun a b => inferInstanceAs (Decidable (a.distanceKm ≤ b.distanceKm))

instance : IsTotal Intercept interceptLE :=
  ⟨fun a b => le_total a.distanceKm b.distanceKm⟩

instance : IsTrans Intercept interceptLE :=
  ⟨fun _ _ _ h1 h2 => le_trans h1 h2⟩

/-- Scanner subset choice in `onTick`: the filtered list when it is non-empty,
otherwise the whole catalog, truncated by `slice(0, 1000)`. -/
def scannerSource (filtered all : List Sat) : List Sat :=
  (if filtered.length != 0 then filtered else all).take 1000

/-- Unsorted scanner pass of `onTick`: propagate every subset member at the
scan instant, skip the ones that fail, and retain those whose distance in
meters (computed by the host geometry, here the oracle `distMeters`) is
strictly below `scanRadius * 1000`, recording the distance in km. -/
def scanCandidates (L : PropLib) (distMeters : PV → ℚ) (scanRadius : ℚ)
    (t : ℤ) (subset : List Sat) : List Intercept :=
  subset.filterMap (fun s =>
    match L.propagateAt s t with
    | none => none
    | some pv =>
      if distMeters pv < scanRadius * 1000 then
        some { name := s.name, id := s.id, distanceKm := distMeters pv / 1000 }
      else none)

/-- Full scan cycle: candidates sorted by the stable JavaScript
`Array.prototype.sort` under the ascending-distance comparator, modelled by the
stable `List.insertionSort`. -/
def scanOnce (L : PropLib) (distMeters : PV → ℚ) (scanRadius : ℚ)
    (t : ℤ) (subset : List Sat) : List Intercept :=
  (scanCandidates L distMeters scanRadius t subset).insertionSort interceptLE

/-- Grouping loop of `parseTLE`: walk the cleaned line list in steps of three,
emitting a record (keyed by the index of its first line) whenever all three
lines are truthy, and skipping the block otherwise. -/
def groupTLE : Nat → List String → List Sat
  | i, nm :: l1 :: l2 :: rest =>
    if nm != "" && l1 != "" && l2 != "" then
      { id := i, name := nm, line1 := l1, line2 := l2 } :: groupTLE (i + 3) rest
    else groupTLE (i + 3) rest
  | _, _ => []

/-- Helper for `split("\n")`: accumulate the current line until a newline. -/
def splitLinesAux : List Char → List Char → List String
  | [], acc => [String.mk acc.reverse]
  | c :: cs, acc =>
    if c = '\n' then String.mk acc.reverse :: splitLinesAux cs []
    else splitLinesAux cs (c :: acc)

/-- JavaScript `tleData.split("\n")`. -/
def splitLines (s : String) : List String := splitLinesAux s.toList []

/-- Embedding of `parseTLE`: split into lines, trim each, drop empties, then
group into 3-line records. -/
def parseTLE (tleData : String) : List Sat :=
  groupTLE 0 (((splitLines tleData).map jsTrim).filter (fun l => l != ""))

/-- Hardcoded fallback dataset of celestrakLoader (ISS only). -/
def BACKUP_TLE : String :=
  "\nISS (ZARYA)\n1 25544U 98067A   24036.56038380  .00014798  00000-0  26998-3 0  9993\n2 25544  51.6401 195.9620 0004567 114.7672 344.9754 15.49651543437637\n"

/-- Embedding of `fetchSatellites`: a successful fetch of the local blob yields
its parse; any failure (missing file, non-ok response, unreadable body) falls
back to parsing `BACKUP_TLE`.  The `Option String` argument is the fetch
outcome. -/
def fetchSatellites (fetched : Option String) : List Sat :=
  match fetched with
  | none => parseTLE BACKUP_TLE
  | some text => parseTLE text

/-- Fixture satellite used by concrete witnesses and counterexamples. -/
def satA : Sat := { id := 0, name := "AQUA", line1 := "A1", line2 := "A2" }

/-- Second fixture satellite with a different id and name. -/
def satB : Sat := { id := 1, name := "TERRA", line1 := "B1", line2 := "B2" }

/-- Fixture propagation output. -/
def pv0 : PV := { latitude := 0, longitude := 0, height := 0, vKmH := 0 }

/-- Oracle on which every epoch is 0 and every propagation succeeds. -/
def Lsome : PropLib := { epochMs := fun _ => some 0, propagateAt := fun _ _ => some pv0 }

/-- Oracle on which every epoch is 0 and every propagation fails. -/
def Lnone : PropLib := { epochMs := fun _ => some 0, propagateAt := fun _ _ => none }

/-- Fixture state in which the fixture satellite is tracked with a cached path,
the follow flag set and a published snapshot. -/
def stTracked : AppState :=
  { selectedSat := some satA, selectedSatPath := some [], isTleOutOfRange := false,
    isTracked := true, tleWarning := false, panel := some (0, .FRESH) }

/-- Fixture state in which the fixture satellite is tracked but flagged out of
range, with no cached path. -/
def stOutOfRange : AppState :=
  { selectedSat := some satA, selectedSatPath := none, isTleOutOfRange := true,
    isTracked := false, tleWarning := true, panel := none }

/-! Helper lemmas shared by the claim theorems. -/

theorem selectionDisplay_static (st : AppState) (sat : Sat)
    (h1 : st.selectedSat = some sat) (h2 : st.isTleOutOfRange = true) :
    selectionDisplay st true = .staticMarker := by
  simp [selectionDisplay, h1, h2]

theorem updateInfoPanel_panel (L : PropLib) (now : ℤ) (sat : Sat) (st : AppState)
    (epoch : ℤ) (hE : L.epochMs sat = some epoch) :
    (updateInfoPanel L now sat st).panel
      = some (sat.id, tleAgeLabelOf (tleAgeDays epoch now)) := by
  simp [updateInfoPanel, hE]

theorem updateInfoPanel_selectedSat (L : PropLib) (now : ℤ) (sat : Sat)
    (st : AppState) : (updateInfoPanel L now sat st).selectedSat = st.selectedSat := by
  cases h : L.epochMs sat <;> simp [updateInfoPanel, h]

theorem updateInfoPanel_selectedSatPath (L : PropLib) (now : ℤ) (sat : Sat)
    (st : AppState) :
    (updateInfoPanel L now sat st).selectedSatPath = st.selectedSatPath := by
  cases h : L.epochMs sat <;> simp [updateInfoPanel, h]

theorem updateInfoPanel_isTleOutOfRange (L : PropLib) (now : ℤ) (sat : Sat)
    (st : AppState) :
    (updateInfoPanel L now sat st).isTleOutOfRange = st.isTleOutOfRange := by
  cases h : L.epochMs sat <;> simp [updateInfoPanel, h]

theorem filterMap_sample_map_fst (L : PropLib) (s : Sat) (base : ℤ) :
    ∀ l : List ℤ,
      ((l.filterMap (fun i =>
        match L.propagateAt s (base + i * 60000) with
        | some pv => some (base + i * 60000, pv)
        | none => none)).map Prod.fst)
        = (l.filter (fun i => (L.propagateAt s (base + i * 60000)).isSome)).map
            (fun i => base + i * 60000)
  | [] => rfl
  | i :: t => by
    cases h : L.propagateAt s (base + i * 60000) <;>
      simp [h, filterMap_sample_map_fst L s base t]

theorem historyOffsets_pairwise : List.Pairwise (· ≤ ·) historyOffsets := by
  unfold historyOffsets
  refine List.Pairwise.map _ (fun a b hab => ?_) (List.pairwise_lt_range 241)
  have hc : Int.ofNat a ≤ Int.ofNat b := Int.ofNat_le.mpr (Nat.le_of_lt hab)
  linarith

theorem tleAgeLabelOf_spec (a : ℚ) :
    (tleAgeLabelOf a = .FRESH ↔ a < 3) ∧
    (tleAgeLabelOf a = .OK ↔ 3 ≤ a ∧ a < 14) ∧
    (tleAgeLabelOf a = .OLD ↔ 14 ≤ a ∧ a < 30) ∧
    (tleAgeLabelOf a = .VERY_OLD ↔ 30 ≤ a) := by
  unfold tleAgeLabelOf
  by_cases h1 : a < 3
  · rw [if_pos h1]
    exact ⟨⟨fun _ => h1, fun _ => rfl⟩,
           ⟨fun hx => TleAgeLabel.noConfusion hx, fun hx => by exfalso; linarith [hx.1]⟩,
           ⟨fun hx => TleAgeLabel.noConfusion hx, fun hx => by exfalso; linarith [hx.1]⟩,
           ⟨fun hx => TleAgeLabel.noConfusion hx, fun hx => by exfalso; linarith⟩⟩
  · rw [if_neg h1]
    by_cases h2 : a < 14
    · rw [if_pos h2]
      exact ⟨⟨fun hx => TleAgeLabel.noConfusion hx, fun hx => by exfalso; linarith⟩,
             ⟨fun _ => ⟨by linarith, h2⟩, fun _ => rfl⟩,
             ⟨fun hx => TleAgeLabel.noConfusion hx, fun hx => by exfalso; linarith [hx.1]⟩,
             ⟨fun hx => TleAgeLabel.noConfusion hx, fun hx => by exfalso; linarith⟩⟩
    · rw [if_neg h2]
      by_cases h3 : a < 30
      · rw [if_pos h3]
        exact ⟨⟨fun hx => TleAgeLabel.noConfusion hx, fun hx => by exfalso; linarith⟩,
               ⟨fun hx => TleAgeLabel.noConfusion hx, fun hx => by exfalso; linarith [hx.2]⟩,
               ⟨fun _ => ⟨by linarith, h3⟩, fun _ => rfl⟩,
               ⟨fun hx => TleAgeLabel.noConfusion hx, fun hx => by exfalso; linarith⟩⟩
      · rw [if_neg h3]
        exact ⟨⟨fun hx => TleAgeLabel.noConfusion hx, fun hx => by exfalso; linarith⟩,
               ⟨fun hx => TleAgeLabel.noConfusion hx, fun hx => by exfalso; linarith [hx.2]⟩,
               ⟨fun hx => TleAgeLabel.noConfusion hx, fun hx => by exfalso; linarith [hx.2]⟩,
               ⟨fun _ => by linarith, fun _ => rfl⟩⟩

theorem age_le_horizon_iff (epoch now : ℤ) :
    tleAgeDays epoch now ≤ 30 ↔ now ≤ epoch + horizonMs := by
  unfold tleAgeDays horizonMs MAX_FUTURE_DAYS
  rw [div_le_iff₀ (by norm_num : (0 : ℚ) < 86400 * 1000)]
  rw [show ((30 : ℚ) * (86400 * 1000)) = ((2592000000 : ℤ) : ℚ) by norm_num]
  rw [Int.cast_le]
  omega

/-- Claim C3: for every elements set (any epoch) and every instant, the
freshness classification from `age = instant - epoch` in days yields FRESH
exactly when `age < 3` (hence for every negative age), OK exactly when
`3 ≤ age < 14`, OLD exactly when `14 ≤ age < 30`, VERY_OLD exactly when
`age ≥ 30`; and the validity flag (the negation of `isOutOfRange`) is true
exactly when `age ≤ 30` days. -/
theorem c3_freshness_thresholds (L : PropLib) (s : Sat) (epoch now : ℤ)
    (hE : L.epochMs s = some epoch) :
    (tleAgeLabelOf (tleAgeDays epoch now) = .FRESH ↔ tleAgeDays epoch now < 3) ∧
    (tleAgeLabelOf (tleAgeDays epoch now) = .OK ↔
      3 ≤ tleAgeDays epoch now ∧ tleAgeDays epoch now < 14) ∧
    (tleAgeLabelOf (tleAgeDays epoch now) = .OLD ↔
      14 ≤ tleAgeDays epoch now ∧ tleAgeDays epoch now < 30) ∧
    (tleAgeLabelOf (tleAgeDays epoch now) = .VERY_OLD ↔ 30 ≤ tleAgeDays epoch now) ∧
    (isOutOfRange L now (some s) = false ↔ tleAgeDays epoch now ≤ 30) := by
  obtain ⟨h1, h2, h3, h4⟩ := tleAgeLabelOf_spec (tleAgeDays epoch now)
  refine ⟨h1, h2, h3, h4, ?_⟩
  rw [age_le_horizon_iff]
  simp [isOutOfRange, hE, not_lt]

/-- Witness for C3 at epoch 0 and instant 0: age 0 classifies FRESH and the
object is within validity. -/
theorem c3_freshness_thresholds_witness :
    tleAgeLabelOf (tleAgeDays 0 0) = .FRESH ∧ isOutOfRange Lsome 0 (some satA) = false := by
  have h := c3_freshness_thresholds Lsome satA 0 0 rfl
  exact ⟨h.1.mpr (by norm_num [tleAgeDays]), h.2.2.2.2.mpr (by norm_num [tleAgeDays])⟩

/-- Claim C1 (code-bug evidence): `handleDateChange` applies no lower clamp at
the epoch of the selected object, contradicting both the specified clamp
interval `[epoch, epoch + 30 days]` and the comment inside the handler
itself; requesting one day
before the epoch (epoch 0, wall clock well ahead) installs that instant
unchanged, strictly below the epoch. -/
theorem c1_handleDateChange_no_lower_clamp :
    handleDateChangeInstant Lsome (some satA) (10 * horizonMs) (-86400000) = -86400000 ∧
    Lsome.epochMs satA = some 0 ∧ (-86400000 : ℤ) < 0 := by
  refine ⟨by decide, rfl, by decide⟩

/-- Claim C8 (counterexample): entering the value 0 in the custom speed input
installs multiplier 0, because `setSpeed` rejects only NaN; the invariant
`multiplier ≠ 0` is not enforced. -/
theorem c8_setSpeed_zero_counterexample :
    ((setSpeed (initClock 0) false (some 0)).1).multiplier = 0 := rfl

/-- Claim C8 (amended): the initial multiplier is 10; `setSpeed` leaves the
clock unchanged on non-numeric (NaN) input, and every numeric input `m` —
including 0 — becomes the installed multiplier while forcing the clock to run
(animation on, pause flag cleared). -/
theorem c8_multiplier_amended :
    (∀ now : ℤ, (initClock now).multiplier = 10) ∧
    (∀ (c : SimClock) (p : Bool) (m : ℚ),
      (setSpeed c p (some m)).1.multiplier = m ∧
      (setSpeed c p (some m)).1.shouldAnimate = true ∧
      (setSpeed c p (some m)).2 = false) ∧
    (∀ (c : SimClock) (p : Bool), setSpeed c p none = (c, p)) :=
  ⟨fun _ => rfl, fun _ _ _ => ⟨rfl, rfl, rfl⟩, fun _ _ => rfl⟩

/-- Claim C9: the catalog load never fails outright — a successful fetch is
parsed as is, and every failure outcome falls back to the built-in backup blob,
which parses to exactly one record, the ISS. -/
theorem c9_catalog_fallback :
    fetchSatellites none =
      [{ id := 0, name := "ISS (ZARYA)",
         line1 := "1 25544U 98067A   24036.56038380  .00014798  00000-0  26998-3 0  9993",
         line2 := "2 25544  51.6401 195.9620 0004567 114.7672 344.9754 15.49651543437637" }] ∧
    (fetchSatellites none).length = 1 ∧
    (∀ text, fetchSatellites (some text) = parseTLE text) := by
  refine ⟨by decide, by decide, fun _ => rfl⟩

/-- Claim C10: the scanner scans the filtered list when it is non-empty, falls
back to the whole catalog when the filter matches nothing, and in every case
examines at most the first 1000 entries. -/
theorem c10_scanner_source (filtered all : List Sat) :
    (filtered ≠ [] → scannerSource filtered all = filtered.take 1000) ∧
    (filtered = [] → scannerSource filtered all = all.take 1000) ∧
    (scannerSource filtered all).length ≤ 1000 := by
  refine ⟨?_, ?_, ?_⟩
  · intro h
    cases filtered with
    | nil => exact absurd rfl h
    | cons a t => simp [scannerSource]
  · intro h
    subst h
    simp [scannerSource]
  · unfold scannerSource
    split <;> simp

/-- Witness for C10: a singleton filtered list is scanned itself; an empty
filtered list falls back to the catalog. -/
theorem c10_scanner_source_witness :
    scannerSource [satA] [satB] = [satA] ∧ scannerSource [] [satB] = [satB] :=
  ⟨by
    have h := (c10_scanner_source [satA] [satB]).1 (by decide)
    simpa using h,
   by
    have h := (c10_scanner_source [] [satB]).2.1 rfl
    simpa using h⟩

theorem scanCandidates_filter_isSome (L : PropLib) (dm : PV → ℚ) (r : ℚ) (t : ℤ) :
    ∀ subset : List Sat,
      scanCandidates L dm r t (subset.filter (fun s => (L.propagateAt s t).isSome))
        = scanCandidates L dm r t subset
  | [] => rfl
  | s :: rest => by
    have IH := scanCandidates_filter_isSome L dm r t rest
    unfold scanCandidates at IH ⊢
    cases h : L.propagateAt s t <;>
      simp [List.filter_cons, List.filterMap_cons, h, IH]

/-- Claim C6: the history sampler covers the fixed plus/minus 4 hour window
around the center at a 2-minute step: its samples are in non-decreasing instant
order, its sampled instants are exactly the grid instants whose propagation
succeeds (a failing step is skipped, not fatal), and when nothing fails the
full 241-point grid from center minus 240 minutes to center plus 240 minutes is
covered (the k-th grid offset being -240 + 2k minutes); the future sampler — a
pure function of its start instant, re-evaluated on each request — never
returns more than the 91 configured steps. -/
theorem c6_samplers (L : PropLib) (s : Sat) (base start : ℤ) :
    List.Pairwise (fun a b : ℤ × PV => a.1 ≤ b.1) (sampleHistory L s base) ∧
    (sampleHistory L s base).map Prod.fst
      = (historyOffsets.filter
          (fun i => (L.propagateAt s (base + i * 60000)).isSome)).map
          (fun i => base + i * 60000) ∧
    ((∀ i ∈ historyOffsets, (L.propagateAt s (base + i * 60000)).isSome = true) →
      (sampleHistory L s base).map Prod.fst
        = historyOffsets.map (fun i => base + i * 60000)) ∧
    (∀ k : Nat, k < 241 → historyOffsets[k]? = some (-240 + 2 * Int.ofNat k)) ∧
    historyOffsets.length = 241 ∧
    (sampleFuture L s start).length ≤ 91 := by
  refine ⟨?_, ?_, ?_, ?_, ?_, ?_⟩
  · unfold sampleHistory
    refine List.pairwise_filterMap.mpr ?_
    refine historyOffsets_pairwise.imp ?_
    intro i j hij b hb c hc
    cases h1 : L.propagateAt s (base + i * 60000) with
    | none => rw [h1] at hb; simp at hb
    | some pv1 =>
      rw [h1] at hb
      simp only [Option.mem_def, Option.some.injEq] at hb
      cases h2 : L.propagateAt s (base + j * 60000) with
      | none => rw [h2] at hc; simp at hc
      | some pv2 =>
        rw [h2] at hc
        simp only [Option.mem_def, Option.some.injEq] at hc
        rw [← hb, ← hc]
        have hmul : i * 60000 ≤ j * 60000 :=
          mul_le_mul_of_nonneg_right hij (by norm_num)
        simpa using hmul
  · exact filterMap_sample_map_fst L s base historyOffsets
  · intro h
    rw [show (sampleHistory L s base).map Prod.fst
        = (historyOffsets.filter
            (fun i => (L.propagateAt s (base + i * 60000)).isSome)).map
            (fun i => base + i * 60000)
      from filterMap_sample_map_fst L s base historyOffsets]
    rw [List.filter_eq_self.mpr h]
  · intro k hk
    simp [historyOffsets, List.getElem?_range hk]
  · simp [historyOffsets]
  · have hle : (sampleFuture L s start).length ≤ futureOffsets.length :=
      List.length_filterMap_le _ _
    simpa [futureOffsets] using hle

/-- Witness for C6 against the always-successful oracle: the full grid is
covered, the first grid offset is -240 minutes, and the future path respects
its step bound. -/
theorem c6_samplers_witness :
    (sampleHistory Lsome satA 0).map Prod.fst
      = historyOffsets.map (fun i => 0 + i * 60000) ∧
    historyOffsets[0]? = some (-240 + 2 * Int.ofNat 0) ∧
    (sampleFuture Lsome satA 0).length ≤ 91 := by
  have h := c6_samplers Lsome satA 0 0
  exact ⟨h.2.2.1 (fun i _ => rfl), h.2.2.2.1 0 (by decide), h.2.2.2.2.2⟩

/-- Claim C5: every scan cycle yields a result list sorted ascending by
distance; every retained entry lies strictly within the configured scan
radius; entries at equal distance keep catalog insertion order (the sort is
stable); and a propagation failure excludes only the failing object without
aborting the scan — scanning a subset is the same as scanning its
successfully-propagating members. -/
theorem c5_scan_results (L : PropLib) (dm : PV → ℚ) (r : ℚ) (t : ℤ)
    (subset : List Sat) :
    List.Pairwise interceptLE (scanOnce L dm r t subset) ∧
    List.Forall (fun x => x.distanceKm < r) (scanOnce L dm r t subset) ∧
    (∀ d : ℚ, (scanOnce L dm r t subset).filter (fun x => x.distanceKm == d)
      = (scanCandidates L dm r t subset).filter (fun x => x.distanceKm == d)) ∧
    scanOnce L dm r t subset
      = scanOnce L dm r t (subset.filter (fun s => (L.propagateAt s t).isSome)) := by
  have hmem : ∀ x ∈ scanCandidates L dm r t subset, x.distanceKm < r := by
    intro x hx
    unfold scanCandidates at hx
    obtain ⟨a, ha, hax⟩ := List.mem_filterMap.mp hx
    cases h1 : L.propagateAt a t with
    | none => rw [h1] at hax; simp at hax
    | some pv =>
      rw [h1] at hax
      have hax2 : (if dm pv < r * 1000 then
          some { name := a.name, id := a.id, distanceKm := dm pv / 1000 }
        else (none : Option Intercept)) = some x := hax
      by_cases h2 : dm pv < r * 1000
      · rw [if_pos h2] at hax2
        have hx2 := Option.some.inj hax2
        have hlt : dm pv / 1000 < r := by
          rw [div_lt_iff₀ (by norm_num : (0 : ℚ) < 1000)]
          linarith
        rw [← hx2]
        exact hlt
      · rw [if_neg h2] at hax2
        exact absurd hax2 (by simp)
  refine ⟨?_, ?_, ?_, ?_⟩
  · exact List.sorted_insertionSort interceptLE (scanCandidates L dm r t subset)
  · refine List.forall_iff_forall_mem.mpr ?_
    intro x hx
    exact hmem x ((List.mem_insertionSort interceptLE).mp hx)
  · intro d
    have hfc : ((scanCandidates L dm r t subset).filter
        (fun x => x.distanceKm == d)).Pairwise interceptLE := by
      refine List.pairwise_of_forall_mem_list ?_
      intro a ha b hb
      have had : a.distanceKm = d := by
        simpa using (List.mem_filter.mp ha).2
      have hbd : b.distanceKm = d := by
        simpa using (List.mem_filter.mp hb).2
      show a.distanceKm ≤ b.distanceKm
      rw [had, hbd]
    have hsl : List.Sublist
        ((scanCandidates L dm r t subset).filter (fun x => x.distanceKm == d))
        ((scanCandidates L dm r t subset).insertionSort interceptLE) :=
      List.sublist_insertionSort hfc (List.filter_sublist _)
    have hidem : ((scanCandidates L dm r t subset).filter
          (fun x => x.distanceKm == d)).filter (fun x => x.distanceKm == d)
        = (scanCandidates L dm r t subset).filter (fun x => x.distanceKm == d) :=
      List.filter_eq_self.mpr (fun a ha => (List.mem_filter.mp ha).2)
    have hsl2 : List.Sublist
        ((scanCandidates L dm r t subset).filter (fun x => x.distanceKm == d))
        (((scanCandidates L dm r t subset).insertionSort interceptLE).filter
          (fun x => x.distanceKm == d)) := by
      have h1 := List.Sublist.filter (fun x => x.distanceKm == d) hsl
      rwa [hidem] at h1
    have hlen : (((scanCandidates L dm r t subset).insertionSort
          interceptLE).filter (fun x => x.distanceKm == d)).length
        = ((scanCandidates L dm r t subset).filter
            (fun x => x.distanceKm == d)).length :=
      ((List.perm_insertionSort interceptLE
        (scanCandidates L dm r t subset)).filter _).length_eq
    exact (hsl2.eq_of_length hlen.symm).symm
  · unfold scanOnce
    rw [scanCandidates_filter_isSome L dm r t subset]

/-- Claim C2: path sampling is gated by validity — selecting an out-of-range
object builds no path and surfaces it only as the static marker; a tick on
which validity transitions true to false discards the cached orbit path while
keeping the selection; a tick on which validity transitions false to true
re-samples the history path at the tick instant. -/
theorem c2_validity_gates_sampling :
    (∀ (L : PropLib) (catalog : List Sat) (st : AppState) (now : ℤ)
        (satId : Nat) (sat : Sat),
      catalog.find? (fun s => s.id == satId) = some sat →
      isOutOfRange L now (some sat) = true →
      (selectSatelliteById L catalog now satId st).selectedSatPath = none ∧
      selectionDisplay (selectSatelliteById L catalog now satId st) true
        = .staticMarker) ∧
    (∀ (L : PropLib) (st : AppState) (now : ℤ) (s : Sat),
      st.selectedSat = some s →
      (st.isTleOutOfRange = false → isOutOfRange L now (some s) = true →
        (onTickUpdate L now st).selectedSatPath = none) ∧
      (st.isTleOutOfRange = true → isOutOfRange L now (some s) = false →
        (onTickUpdate L now st).selectedSatPath
          = some (sampleHistory L s now))) := by
  constructor
  · intro L catalog st now satId sat hfind hout
    have hstate : selectSatelliteById L catalog now satId st
        = updateInfoPanel L now sat
            { st with selectedSat := some sat, isTleOutOfRange := true,
                      selectedSatPath := none, tleWarning := true } := by
      unfold selectSatelliteById
      rw [hfind]
      simp [hout]
    constructor
    · rw [hstate, updateInfoPanel_selectedSatPath]
    · refine selectionDisplay_static _ sat ?_ ?_
      · rw [hstate, updateInfoPanel_selectedSat]
      · rw [hstate, updateInfoPanel_isTleOutOfRange]
  · intro L st now s hsel
    constructor
    · intro hflag hout
      have hstate : onTickUpdate L now st
          = updateInfoPanel L now s
              { st with selectedSat := some s, isTleOutOfRange := true,
                        selectedSatPath := none, tleWarning := true } := by
        unfold onTickUpdate
        rw [hsel]
        simp [hout, hflag]
      rw [hstate, updateInfoPanel_selectedSatPath]
    · intro hflag hout
      have hstate : onTickUpdate L now st
          = updateInfoPanel L now s
              { st with selectedSat := some s, isTleOutOfRange := false,
                        selectedSatPath := some (sampleHistory L s now),
                        tleWarning := false } := by
        unfold onTickUpdate
        rw [hsel]
        simp [hout, hflag]
      rw [hstate, updateInfoPanel_selectedSatPath]

/-- Witness for C2 at concrete states: selecting the fixture satellite one
millisecond past the horizon disables the path and shows the static marker; a
tick crossing out of validity drops the cached path; a tick crossing back into
validity re-samples it. -/
theorem c2_validity_gates_sampling_witness :
    ((selectSatelliteById Lsome [satA] (horizonMs + 1) 0
        initialAppState).selectedSatPath = none ∧
      selectionDisplay
        (selectSatelliteById Lsome [satA] (horizonMs + 1) 0 initialAppState) true
        = .staticMarker) ∧
    (onTickUpdate Lsome (horizonMs + 1) stTracked).selectedSatPath = none ∧
    (onTickUpdate Lsome 0 stOutOfRange).selectedSatPath
      = some (sampleHistory Lsome satA 0) :=
  ⟨c2_validity_gates_sampling.1 Lsome [satA] initialAppState (horizonMs + 1) 0
      satA (by decide) (by decide),
   (c2_validity_gates_sampling.2 Lsome stTracked (horizonMs + 1) satA rfl).1
      rfl (by decide),
   (c2_validity_gates_sampling.2 Lsome stOutOfRange 0 satA rfl).2
      rfl (by decide)⟩

/-- Claim C4 (counterexample): with a catalog containing AQUA (id 0) and TERRA
(id 1) and search term "AQUA", the filtered view excludes id 1, yet selecting
id 1 still installs the selection — entering TRACKING(1) — and still builds the
241-sample history path, because the lookup consults the full catalog rather
than the filtered view. -/
theorem c4_select_counterexample :
    (filteredSatellites Lsome 0 "AQUA" false 0 0 0 0 [satA, satB]).all
      (fun s => s.id != 1) = true ∧
    (selectSatelliteById Lsome [satA, satB] 0 1 initialAppState).selectedSat
      = some satB ∧
    (selectSatelliteById Lsome [satA, satB] 0 1 initialAppState).selectedSatPath
      = some (sampleHistory Lsome satB 0) ∧
    (sampleHistory Lsome satB 0).length = 241 := by
  refine ⟨by decide, by decide, rfl, ?_⟩
  have h3 : (sampleHistory Lsome satB 0).length
      = ((sampleHistory Lsome satB 0).map Prod.fst).length := by
    rw [List.length_map]
  have h2 : historyOffsets.filter
      (fun i => (Lsome.propagateAt satB ((0 : ℤ) + i * 60000)).isSome)
      = historyOffsets :=
    List.filter_eq_self.mpr (fun a _ => rfl)
  rw [h3]
  unfold sampleHistory
  rw [filterMap_sample_map_fst Lsome satB 0 historyOffsets]
  rw [h2]
  simp [historyOffsets]

/-- Claim C4 (amended): `select(id)` succeeds for every id present in the full
catalog, regardless of the filtered view: it installs the selection (enters
TRACKING(id)), builds the history path when the object is within validity
(and clears it when not), and computes and publishes the freshness state; an id
absent from the catalog leaves the state unchanged.  An id outside the filtered
view is deselected only afterwards, by the separate filter-change reaction. -/
theorem c4_select_uses_full_catalog (L : PropLib) (catalog : List Sat)
    (now : ℤ) (satId : Nat) (st : AppState) :
    (catalog.find? (fun s => s.id == satId) = none →
      selectSatelliteById L catalog now satId st = st) ∧
    (∀ sat, catalog.find? (fun s => s.id == satId) = some sat →
      (selectSatelliteById L catalog now satId st).selectedSat = some sat ∧
      (isOutOfRange L now (some sat) = false →
        (selectSatelliteById L catalog now satId st).selectedSatPath
          = some (sampleHistory L sat now)) ∧
      (isOutOfRange L now (some sat) = true →
        (selectSatelliteById L catalog now satId st).selectedSatPath = none) ∧
      (∀ epoch, L.epochMs sat = some epoch →
        (selectSatelliteById L catalog now satId st).panel
          = some (sat.id, tleAgeLabelOf (tleAgeDays epoch now)))) := by
  constructor
  · intro h
    unfold selectSatelliteById
    rw [h]
  · intro sat hfind
    refine ⟨?_, ?_, ?_, ?_⟩
    · unfold selectSatelliteById
      rw [hfind]
      cases hout : isOutOfRange L now (some sat) <;>
        simp [hout, updateInfoPanel_selectedSat]
    · intro hvalid
      unfold selectSatelliteById
      rw [hfind]
      simp [hvalid, updateInfoPanel_selectedSatPath]
    · intro hinvalid
      unfold selectSatelliteById
      rw [hfind]
      simp [hinvalid, updateInfoPanel_selectedSatPath]
    · intro epoch hE
      unfold selectSatelliteById
      rw [hfind]
      cases hout : isOutOfRange L now (some sat) <;>
        simp [hout, updateInfoPanel_panel L now sat _ epoch hE]

/-- Witness for C4 (amended) on the two-satellite fixture catalog: a missing id
changes nothing; the id of the in-range fixture satellite installs selection,
path and freshness snapshot. -/
theorem c4_select_uses_full_catalog_witness :
    selectSatelliteById Lsome [satA, satB] 0 7 initialAppState = initialAppState ∧
    (selectSatelliteById Lsome [satA, satB] 0 1 initialAppState).selectedSat
      = some satB ∧
    (selectSatelliteById Lsome [satA, satB] 0 1 initialAppState).panel
      = some (satB.id, tleAgeLabelOf (tleAgeDays 0 0)) :=
  ⟨(c4_select_uses_full_catalog Lsome [satA, satB] 0 7 initialAppState).1
      (by decide),
   ((c4_select_uses_full_catalog Lsome [satA, satB] 0 1 initialAppState).2 satB
      (by decide)).1,
   (((c4_select_uses_full_catalog Lsome [satA, satB] 0 1 initialAppState).2 satB
      (by decide)).2.2.2) 0 rfl⟩

/-- Claim C7: when a tracked object is no longer in the filtered view, the
filter-change reaction deterministically clears the controller to IDLE: the
selection, the cached orbit path, the tracking/follow flag and the externally
exposed selection snapshot are all reset.  The reaction is an ordinary state
transition, not an error path. -/
theorem c7_filter_change_clears (filtered : List Sat) (st : AppState) (sel : Sat)
    (hSel : st.selectedSat = some sel)
    (hNot : filtered.all (fun s => s.id != sel.id) = true) :
    (onFilterChanged filtered st).selectedSat = none ∧
    (onFilterChanged filtered st).selectedSatPath = none ∧
    (onFilterChanged filtered st).isTracked = false ∧
    (onFilterChanged filtered st).panel = none := by
  have hAny : filtered.any (fun s => s.id == sel.id) = false := by
    rw [List.all_eq_true] at hNot
    rw [List.any_eq_false]
    intro x hx
    have hx2 := hNot x hx
    simp only [bne_iff_ne, ne_eq] at hx2
    simp [hx2]
  unfold onFilterChanged
  rw [hSel]
  simp [hAny]

/-- Witness for C7: the tracked AQUA fixture vanishes from a filtered view
containing only TERRA, and every exposed field resets. -/
theorem c7_filter_change_clears_witness :
    (onFilterChanged [satB] stTracked).selectedSat = none ∧
    (onFilterChanged [satB] stTracked).selectedSatPath = none ∧
    (onFilterChanged [satB] stTracked).isTracked = false ∧
    (onFilterChanged [satB] stTracked).panel = none :=
  c7_filter_change_clears [satB] stTracked satA rfl (by decide)

end SatTrack
